import Mathlib

/-
Verification development for the AC_WPNav waypoint navigation core
(src/libraries/AC_WPNav/AC_WPNav.cpp).

Shallow embedding conventions:
- single precision floats are modelled as exact rationals;
- the float helpers is_zero, is_positive and is_equal, which compare
  against a tiny epsilon, are modelled as exact comparisons;
- sqrtf is modelled by an abstract function supplied by the environment
  record Env (instantiated with an exact finite table in the fixtures);
- fallible calls return a Bool success flag together with the resulting
  state, mirroring the C++ pattern of a bool return plus mutation of
  member fields (partial mutation before an early return is preserved);
- the position controller, the inertial estimator, the terrain database
  and the attitude controller live outside the sources; the fields the
  core reads and writes are modelled per the spec (section 4.2) as a
  record PC of plain values plus opaque transformations in Env.
-/

namespace WPNav

/-- Three dimensional vector over the rationals, modelling Vector3f. -/
structure Vec3 where
  x : ℚ
  y : ℚ
  z : ℚ
deriving DecidableEq

instance : Add Vec3 := ⟨fun a b => ⟨a.x + b.x, a.y + b.y, a.z + b.z⟩⟩

instance : Sub Vec3 := ⟨fun a b => ⟨a.x - b.x, a.y - b.y, a.z - b.z⟩⟩

instance : Neg Vec3 := ⟨fun a => ⟨-a.x, -a.y, -a.z⟩⟩

instance : HMul Vec3 ℚ Vec3 := ⟨fun a c => ⟨a.x * c, a.y * c, a.z * c⟩⟩

instance : HDiv Vec3 ℚ Vec3 := ⟨fun a c => ⟨a.x / c, a.y / c, a.z / c⟩⟩

@[simp] theorem Vec3.add_x (a b : Vec3) : (a + b).x = a.x + b.x := rfl

@[simp] theorem Vec3.add_y (a b : Vec3) : (a + b).y = a.y + b.y := rfl

@[simp] theorem Vec3.add_z (a b : Vec3) : (a + b).z = a.z + b.z := rfl

@[simp] theorem Vec3.sub_x (a b : Vec3) : (a - b).x = a.x - b.x := rfl

@[simp] theorem Vec3.sub_y (a b : Vec3) : (a - b).y = a.y - b.y := rfl

@[simp] theorem Vec3.sub_z (a b : Vec3) : (a - b).z = a.z - b.z := rfl

@[simp] theorem Vec3.neg_x (a : Vec3) : (-a).x = -a.x := rfl

@[simp] theorem Vec3.neg_y (a : Vec3) : (-a).y = -a.y := rfl

@[simp] theorem Vec3.neg_z (a : Vec3) : (-a).z = -a.z := rfl

@[simp] theorem Vec3.smul_x (a : Vec3) (c : ℚ) : (a * c).x = a.x * c := rfl

@[simp] theorem Vec3.smul_y (a : Vec3) (c : ℚ) : (a * c).y = a.y * c := rfl

@[simp] theorem Vec3.smul_z (a : Vec3) (c : ℚ) : (a * c).z = a.z * c := rfl

@[simp] theorem Vec3.div_x (a : Vec3) (c : ℚ) : (a / c).x = a.x / c := rfl

@[simp] theorem Vec3.div_y (a : Vec3) (c : ℚ) : (a / c).y = a.y / c := rfl

@[simp] theorem Vec3.div_z (a : Vec3) (c : ℚ) : (a / c).z = a.z / c := rfl

@[ext] theorem Vec3.ext_fields {a b : Vec3} (hx : a.x = b.x) (hy : a.y = b.y) (hz : a.z = b.z) :
    a = b := by
  cases a
  cases b
  simp_all

/-- Dot product of two vectors, written out in the sources as the sum of
componentwise products. -/
def dot (a b : Vec3) : ℚ := a.x * b.x + a.y * b.y + a.z * b.z

/-- Models the AP_Math helper constrain_float. -/
def constrain_float (v lo hi : ℚ) : ℚ := if v < lo then lo else if v > hi then hi else v

/-- Models the AP_Math helper is_zero (a comparison of a float against a tiny
epsilon) as an exact comparison with zero. -/
def is_zero (x : ℚ) : Bool := decide (x = 0)

/-- Models the AP_Math helper is_positive as an exact comparison with zero. -/
def is_positive (x : ℚ) : Bool := decide (0 < x)

/-- Models the AP_Math helper is_equal as an exact comparison. -/
def is_equal (a b : ℚ) : Bool := decide (a = b)

/-- Models safe_sqrt: sqrtf with the NaN result for negative inputs replaced
by zero. The actual square root is the abstract function f. -/
def safe_sqrt (f : ℚ → ℚ) (x : ℚ) : ℚ := if x < 0 then 0 else f x

/-- Models the two argument norm helper: sqrtf of the sum of squares. -/
def norm2 (f : ℚ → ℚ) (x y : ℚ) : ℚ := f (x * x + y * y)

/-- Models the Vector3f length method: sqrtf of the sum of the three squares. -/
def vlen (f : ℚ → ℚ) (v : Vec3) : ℚ := f (v.x * v.x + v.y * v.y + v.z * v.z)

/-- Modelled from the spec: WPNAV_ACCELERATION, the default horizontal
acceleration in cm/s/s (the header defining the constant is not in the
sources; the spec gives the default 100). -/
def WPNAV_ACCELERATION : ℚ := 100

/-- Modelled from the spec: WPNAV_LEASH_LENGTH_MIN, the minimum leash length
in cm (spec section 6: approximately 100). -/
def WPNAV_LEASH_LENGTH_MIN : ℚ := 100

/-- Modelled from the spec: WPNAV_WP_FAST_OVERSHOOT_MAX, the maximum
overshoot past the track end for fast waypoints in cm (spec: about 200). -/
def WPNAV_WP_FAST_OVERSHOOT_MAX : ℚ := 200

/-- Modelled from the spec: WPNAV_YAW_DIST_MIN, minimum horizontal track
length for yaw updates in cm (spec: 200). -/
def WPNAV_YAW_DIST_MIN : ℚ := 200

/-- Modelled from the spec: WPNAV_YAW_LEASH_PCT_MIN, leash fraction used in
the yaw update threshold (spec: about one half). -/
def WPNAV_YAW_LEASH_PCT_MIN : ℚ := 1 / 2

/-- Modelled from the spec: WPNAV_WP_TRACK_SPEED_MIN, floor for the track
speed near the destination in cm/s (spec: about 50). -/
def WPNAV_WP_TRACK_SPEED_MIN : ℚ := 50

/-- Modelled from the spec: WPNAV_WP_SPEED_MIN, minimum accepted horizontal
speed request in cm/s (spec: 20). -/
def WPNAV_WP_SPEED_MIN : ℚ := 20

/-- Segment type flag of the core. -/
inductive SegmentType where
  | straight : SegmentType
  | spline : SegmentType
deriving DecidableEq

/-- Spline segment end type passed to the spline setters. -/
inductive SplineSegEnd where
  | stop : SplineSegEnd
  | straight : SplineSegEnd
  | spline : SplineSegEnd
deriving DecidableEq

/-- Cubic Hermite coefficient set, modelling the four entry array
_hermite_spline_solution. -/
structure Hermite where
  c0 : Vec3
  c1 : Vec3
  c2 : Vec3
  c3 : Vec3
deriving DecidableEq

/-- Modelled from the spec (section 4.2): the slice of the position
controller facade that the core reads and writes. The class AC_PosControl
itself is not in the sources; each getter or setter the core calls is
modelled as a read or write of the corresponding field. -/
structure PC where
  pos_target : Vec3
  vel_target : Vec3
  max_speed_xy : ℚ
  max_accel_xy : ℚ
  max_accel_z : ℚ
  max_speed_up : ℚ
  max_speed_down : ℚ
  leash_xy : ℚ
  leash_up_z : ℚ
  leash_down_z : ℚ
  kP : ℚ
  dt : ℚ

/-- Modelled from the spec (sections 4.2 and 6): the read only external
world sampled during one call, plus the abstract math primitives and the
opaque position controller operations whose code is not in the sources. -/
structure Env where
  curr_pos : Vec3
  curr_vel : Vec3
  inav_altitude : ℚ
  terrain_height : Option ℚ
  stopping_point : Vec3
  sqrtq : ℚ → ℚ
  atan2cd : ℚ → ℚ → ℚ
  bearing_cd : Vec3 → Vec3 → ℚ
  freeze_ff_z : PC → PC
  update_xy : PC → PC

/-- State of the AC_WPNav object: parameters, segment state, spline state,
flags and the position controller view, mirroring the member variables the
cpp file reads and writes. -/
structure State where
  wp_speed_cms : ℚ
  wp_radius_cm : ℚ
  wp_speed_up_cms : ℚ
  wp_speed_down_cms : ℚ
  wp_accel_cmss : ℚ
  wp_accel_z_cmss : ℚ
  rangefinder_use : Bool
  rangefinder_available : Bool
  rangefinder_healthy : Bool
  rangefinder_alt_cm : ℚ
  pc : PC
  origin : Vec3
  destination : Vec3
  terrain_alt : Bool
  pos_delta_unit : Vec3
  track_length : ℚ
  track_length_xy : ℚ
  track_desired : ℚ
  track_accel : ℚ
  track_speed : ℚ
  track_leash_length : ℚ
  limited_speed_xy_cms : ℚ
  slow_down_dist : ℚ
  track_error_xy : ℚ
  spline_origin_vel : Vec3
  spline_destination_vel : Vec3
  spline_time : ℚ
  spline_vel_scaler : ℚ
  spline_time_scale : ℚ
  hermite : Hermite
  wp_desired_speed_xy_cms : ℚ
  wp_last_update : ℕ
  yaw : ℚ
  reached_destination : Bool
  fast_waypoint : Bool
  slowing_down : Bool
  recalc_wp_leash : Bool
  new_wp_destination : Bool
  wp_yaw_set : Bool
  segment_type : SegmentType
/-- Body of get_terrain_offset over the four rangefinder members it reads,
taken apart so that rewriting can see that unrelated state updates do not
change the outcome. -/
def terrain_offset_fields (rf_available rf_use rf_healthy : Bool) (rf_alt_cm : ℚ)
    (e : Env) : Option ℚ :=
  if rf_available && rf_use then
    if rf_healthy then some (e.inav_altitude - rf_alt_cm) else none
  else
    match e.terrain_height with
    | some terr_alt => some (e.inav_altitude - terr_alt * 100)
    | none => none

/-- Models AC_WPNav::get_terrain_offset (lines 950 to 970): prefer the
rangefinder when connected and enabled, returning none when it is unhealthy;
otherwise fall back to the terrain database, whose reading (in meters) is
modelled as an optional environment value. -/
def get_terrain_offset (s : State) (e : Env) : Option ℚ :=
  terrain_offset_fields s.rangefinder_available s.rangefinder_use s.rangefinder_healthy
    s.rangefinder_alt_cm e

/-- Value computed by AC_WPNav::calc_slow_down_distance (lines 1012 to 1022):
zero when the acceleration is not positive, otherwise speed squared over four
times the acceleration. -/
def slowDownDistVal (speed_cms accel_cmss : ℚ) : ℚ :=
  if accel_cmss ≤ 0 then 0 else speed_cms * speed_cms / (4 * accel_cmss)

/-- Models AC_WPNav::calc_slow_down_distance as a state update. -/
def calc_slow_down_distance (speed_cms accel_cmss : ℚ) (s : State) : State :=
  { s with slow_down_dist := slowDownDistVal speed_cms accel_cmss }

/-- Models AC_WPNav::get_slow_down_speed (lines 1025 to 1041). -/
def get_slow_down_speed (f : ℚ → ℚ) (dist_from_dest_cm accel_cmss : ℚ) : ℚ :=
  if dist_from_dest_cm ≤ 0 then WPNAV_WP_TRACK_SPEED_MIN
  else
    let target_speed := safe_sqrt f (dist_from_dest_cm * 4 * accel_cmss)
    if target_speed < WPNAV_WP_TRACK_SPEED_MIN then WPNAV_WP_TRACK_SPEED_MIN else target_speed

/-- Models AC_WPNav::calculate_wp_leash_length (lines 533 to 573): projects
the horizontal and vertical caps onto the track direction, then recomputes
the slow down distance from the projected speed and acceleration (the call
to calc_slow_down_distance is inlined as the slow_down_dist field value)
and clears the recalc flag. -/
def calculate_wp_leash_length (e : Env) (s : State) : State :=
  let pos_delta_unit_xy := norm2 e.sqrtq s.pos_delta_unit.x s.pos_delta_unit.y
  let pos_delta_unit_z := |s.pos_delta_unit.z|
  let speed_z := if s.pos_delta_unit.z ≥ 0 then s.pc.max_speed_up else |s.pc.max_speed_down|
  let leash_z := if s.pos_delta_unit.z ≥ 0 then s.pc.leash_up_z else s.pc.leash_down_z
  let ta :=
    if is_zero pos_delta_unit_z && is_zero pos_delta_unit_xy then 0
    else if is_zero s.pos_delta_unit.z then s.wp_accel_cmss / pos_delta_unit_xy
    else if is_zero pos_delta_unit_xy then s.wp_accel_z_cmss / pos_delta_unit_z
    else min (s.wp_accel_z_cmss / pos_delta_unit_z) (s.wp_accel_cmss / pos_delta_unit_xy)
  let ts :=
    if is_zero pos_delta_unit_z && is_zero pos_delta_unit_xy then 0
    else if is_zero s.pos_delta_unit.z then s.pc.max_speed_xy / pos_delta_unit_xy
    else if is_zero pos_delta_unit_xy then speed_z / pos_delta_unit_z
    else min (speed_z / pos_delta_unit_z) (s.pc.max_speed_xy / pos_delta_unit_xy)
  let tll :=
    if is_zero pos_delta_unit_z && is_zero pos_delta_unit_xy then WPNAV_LEASH_LENGTH_MIN
    else if is_zero s.pos_delta_unit.z then s.pc.leash_xy / pos_delta_unit_xy
    else if is_zero pos_delta_unit_xy then leash_z / pos_delta_unit_z
    else min (leash_z / pos_delta_unit_z) (s.pc.leash_xy / pos_delta_unit_xy)
  { s with
    track_accel := ta
    track_speed := ts
    track_leash_length := tll
    slow_down_dist := slowDownDistVal ts ta
    recalc_wp_leash := false }

/-- Models AC_WPNav::check_wp_leash_length (lines 524 to 530). -/
def check_wp_leash_length (e : Env) (s : State) : State :=
  if s.recalc_wp_leash then calculate_wp_leash_length e s else s

/-- Models AC_WPNav::wp_speed_update (lines 1044 to 1071): walk the xy speed
cap of the position controller toward the desired speed by at most
wp_accel_cmss times dt, then flag the leash for recalculation. -/
def wp_speed_update (dt : ℚ) (s : State) : State :=
  let curr_max_speed_xy_cms := s.pc.max_speed_xy
  if is_equal s.wp_desired_speed_xy_cms curr_max_speed_xy_cms then s
  else
    let next_speed :=
      if s.wp_desired_speed_xy_cms > curr_max_speed_xy_cms then
        let c := curr_max_speed_xy_cms + s.wp_accel_cmss * dt
        if c > s.wp_desired_speed_xy_cms then s.wp_desired_speed_xy_cms else c
      else if s.wp_desired_speed_xy_cms < curr_max_speed_xy_cms then
        let c := curr_max_speed_xy_cms - s.wp_accel_cmss * dt
        if c < s.wp_desired_speed_xy_cms then s.wp_desired_speed_xy_cms else c
      else curr_max_speed_xy_cms
    { s with
      pc := { s.pc with max_speed_xy := next_speed }
      recalc_wp_leash := true }

/-- Unsigned 32 bit difference of two millisecond counters, as computed by
the C expression millis() minus the stored stamp. -/
def millis_sub (now last : ℕ) : ℕ := (now % 2 ^ 32 + 2 ^ 32 - last % 2 ^ 32) % 2 ^ 32

/-- Writes of AC_WPNav::set_wp_origin_and_destination that precede the
terrain offset lookup (lines 229 to 249): store the endpoints, the terrain
flag, the track lengths and the direction vector, then recompute the leash
values. -/
def set_wp_stage (e : Env) (origin destination : Vec3) (terrain_alt : Bool)
    (s : State) : State :=
  let pos_delta := destination - origin
  let track_length := vlen e.sqrtq pos_delta
  let track_length_xy := safe_sqrt e.sqrtq (pos_delta.x * pos_delta.x + pos_delta.y * pos_delta.y)
  let pos_delta_unit := if is_zero track_length then Vec3.mk 0 0 0 else pos_delta / track_length
  calculate_wp_leash_length e { s with
    origin := origin
    destination := destination
    terrain_alt := terrain_alt
    track_length := track_length
    track_length_xy := track_length_xy
    pos_delta_unit := pos_delta_unit }

/-- Models AC_WPNav::set_wp_origin_and_destination (lines 227 to 276).
The origin, destination, terrain flag, direction vector and leash values are
stored (set_wp_stage) before the terrain offset lookup, so a failing lookup
leaves the state partially overwritten, exactly as the C code does. -/
def set_wp_origin_and_destination (e : Env) (origin destination : Vec3)
    (terrain_alt : Bool) (s : State) : Bool × State :=
  let s2 := set_wp_stage e origin destination terrain_alt s
  match (if terrain_alt then get_terrain_offset s2 e else some 0) with
  | none => (false, s2)
  | some origin_terr_offset =>
    let speed_along_track := dot e.curr_vel s2.pos_delta_unit
    (true, { s2 with
      pc := { s2.pc with pos_target := origin + Vec3.mk 0 0 origin_terr_offset }
      track_desired := 0
      reached_destination := false
      fast_waypoint := false
      slowing_down := false
      segment_type := SegmentType.straight
      new_wp_destination := true
      wp_yaw_set := false
      limited_speed_xy_cms := constrain_float speed_along_track 0 s2.pc.max_speed_xy })

/-- Models the vector overload of AC_WPNav::set_wp_destination (lines 191 to
215): choose the origin from the recent activity window, convert it to alt
above terrain when requested, then delegate. -/
def set_wp_destination_vec (e : Env) (now : ℕ) (destination : Vec3) (terrain_alt : Bool)
    (s : State) : Bool × State :=
  let origin := if millis_sub now s.wp_last_update < 1000 then s.pc.pos_target
                else e.stopping_point
  match (if terrain_alt then get_terrain_offset s e else some 0) with
  | none => (false, s)
  | some origin_terr_offset =>
    let origin2 := if terrain_alt then { origin with z := origin.z - origin_terr_offset }
                   else origin
    set_wp_origin_and_destination e origin2 destination terrain_alt s

/-- Models AC_WPNav::set_wp_destination_NED (lines 218 to 222). -/
def set_wp_destination_NED (e : Env) (now : ℕ) (destination_NED : Vec3) (s : State) :
    Bool × State :=
  set_wp_destination_vec e now
    (Vec3.mk (destination_NED.x * 100) (destination_NED.y * 100) (-destination_NED.z * 100))
    false s

/-- Terrain offset value consulted by the advancers: zero when the segment
does not use terrain altitudes, otherwise the offset lookup. -/
def advance_terr_offset (s : State) (e : Env) : Option ℚ :=
  if s.terrain_alt then get_terrain_offset s e else some 0

/-- Decision nest of lines 438 to 452: the reached flag after one straight
advance, given the previous flag, the fast waypoint flag, the advanced
track position, the track length, the distance from the terrain adjusted
position to the destination and the acceptance radius. -/
def reached_update (reached fast : Bool) (track_desired track_length dist radius : ℚ) :
    Bool :=
  if !reached then
    if track_desired ≥ track_length then
      if fast then true
      else if dist ≤ radius then true
      else reached
    else reached
  else reached

/-- Models AC_WPNav::advance_wp_target_along_track (lines 318 to 470).
Returns the bool result together with the resulting state; a failing terrain
lookup returns before any member is written. -/
def advance_wp_target_along_track (e : Env) (dt : ℚ) (s : State) : Bool × State :=
  let curr_pos := e.curr_pos
  match advance_terr_offset s e with
  | none => (false, s)
  | some terr_offset =>
    let curr_delta := (curr_pos - Vec3.mk 0 0 terr_offset) - s.origin
    let track_covered := dot curr_delta s.pos_delta_unit
    let track_covered_pos := s.pos_delta_unit * track_covered
    let track_error := curr_delta - track_covered_pos
    let track_error_xy := norm2 e.sqrtq track_error.x track_error.y
    let track_error_z := |track_error.z|
    let leash_z := if track_error.z ≥ 0 then s.pc.leash_up_z else s.pc.leash_down_z
    let track_leash_length_abs := |s.track_leash_length|
    let track_error_max_abs := max (s.track_leash_length * track_error_z / leash_z)
                                   (s.track_leash_length * track_error_xy / s.pc.leash_xy)
    let track_leash_slack :=
      if track_leash_length_abs > track_error_max_abs then
        safe_sqrt e.sqrtq (s.track_leash_length * s.track_leash_length
          - track_error_max_abs * track_error_max_abs)
      else 0
    let track_desired_max := track_covered + track_leash_slack
    let reached_leash_limit := decide (s.track_desired > track_desired_max)
    let speed_along_track := dot e.curr_vel s.pos_delta_unit
    let linear_velocity := if is_positive s.pc.kP then s.track_accel / s.pc.kP
                           else s.pc.max_speed_xy
    let slowing1 :=
      if speed_along_track < -linear_velocity then s.slowing_down
      else if !s.fast_waypoint then
        (if !s.slowing_down && decide (s.track_length - s.track_desired ≤ s.slow_down_dist)
         then true else s.slowing_down)
      else s.slowing_down
    let limited1 :=
      if speed_along_track < -linear_velocity then 0
      else
        let l0 := if decide (dt > 0) && !reached_leash_limit
                  then s.limited_speed_xy_cms + 2 * s.track_accel * dt
                  else s.limited_speed_xy_cms
        let l1 := constrain_float l0 0 s.track_speed
        let l2 :=
          if !s.fast_waypoint && slowing1 then
            min l1 (get_slow_down_speed e.sqrtq (s.track_length - s.track_desired) s.track_accel)
          else l1
        if |speed_along_track| < linear_velocity then
          constrain_float l2 (speed_along_track - linear_velocity)
                             (speed_along_track + linear_velocity)
        else l2
    let td1 :=
      if !reached_leash_limit then
        let td := s.track_desired + limited1 * dt
        if td > track_desired_max then track_desired_max else td
      else s.track_desired
    let limited2 :=
      if !reached_leash_limit then
        if s.track_desired + limited1 * dt > track_desired_max then
          let l := limited1 - 2 * s.track_accel * dt
          if l < 0 then 0 else l
        else limited1
      else limited1
    let td2 := if !s.fast_waypoint then constrain_float td1 0 s.track_length
               else constrain_float td1 0 (s.track_length + WPNAV_WP_FAST_OVERSHOOT_MAX)
    let final_target0 := s.origin + s.pos_delta_unit * td2
    let final_target := { final_target0 with z := final_target0.z + terr_offset }
    let reached1 :=
      reached_update s.reached_destination s.fast_waypoint td2 s.track_length
        (vlen e.sqrtq ((curr_pos - Vec3.mk 0 0 terr_offset) - s.destination)) s.wp_radius_cm
    let horiz_leash_xy0 := final_target - curr_pos
    let horiz_leash_xy := { horiz_leash_xy0 with z := (0 : ℚ) }
    let yaw1 :=
      if s.track_length_xy ≥ WPNAV_YAW_DIST_MIN then
        if s.pc.leash_xy < WPNAV_YAW_DIST_MIN then e.bearing_cd s.origin s.destination
        else
          if vlen e.sqrtq horiz_leash_xy
             > min WPNAV_YAW_DIST_MIN (s.pc.leash_xy * WPNAV_YAW_LEASH_PCT_MIN)
          then e.atan2cd horiz_leash_xy.y horiz_leash_xy.x
          else s.yaw
      else s.yaw
    let yaw_set1 :=
      if s.track_length_xy ≥ WPNAV_YAW_DIST_MIN then
        if s.pc.leash_xy < WPNAV_YAW_DIST_MIN then true
        else
          if vlen e.sqrtq horiz_leash_xy
             > min WPNAV_YAW_DIST_MIN (s.pc.leash_xy * WPNAV_YAW_LEASH_PCT_MIN)
          then true
          else s.wp_yaw_set
      else s.wp_yaw_set
    (true, { s with
      track_error_xy := track_error_xy
      slowing_down := slowing1
      limited_speed_xy_cms := limited2
      track_desired := td2
      pc := { s.pc with pos_target := final_target }
      reached_destination := reached1
      yaw := yaw1
      wp_yaw_set := yaw_set1 })

/-- Models AC_WPNav::update_wpnav (lines 487 to 520): apply the accel caps,
run the speed ramp, advance the target, handle the one shot feed forward
freeze, run the downstream controller, maybe recompute the leash, stamp the
update time. The bool result comes from the advancer alone. -/
def update_wpnav (e : Env) (now : ℕ) (s : State) : Bool × State :=
  let dt := s.pc.dt
  let s1 := { s with
    pc := { s.pc with max_accel_xy := s.wp_accel_cmss, max_accel_z := s.wp_accel_z_cmss } }
  let s2 := wp_speed_update dt s1
  let r := advance_wp_target_along_track e dt s2
  let s3 := r.2
  let s4 := if s3.new_wp_destination then
              { s3 with new_wp_destination := false, pc := e.freeze_ff_z s3.pc }
            else s3
  let s5 := { s4 with pc := e.update_xy s4.pc }
  let s6 := check_wp_leash_length e s5
  (r.1, { s6 with wp_last_update := now })

/-- Models AC_WPNav::update_spline_solution (lines 816 to 822). -/
def update_spline_solution (origin dest origin_vel dest_vel : Vec3) : Hermite :=
  { c0 := origin
    c1 := origin_vel
    c2 := -(origin * (3 : ℚ)) - origin_vel * (2 : ℚ) + dest * (3 : ℚ) - dest_vel
    c3 := origin * (2 : ℚ) + origin_vel - dest * (2 : ℚ) + dest_vel }

/-- Models AC_WPNav::calc_spline_pos_vel (lines 934 to 947): evaluate the
cubic Hermite position and velocity at the given spline time. -/
def calc_spline_pos_vel (h : Hermite) (spline_time : ℚ) : Vec3 × Vec3 :=
  let spline_time_sqrd := spline_time * spline_time
  let spline_time_cubed := spline_time_sqrd * spline_time
  (h.c0 + h.c1 * spline_time + h.c2 * spline_time_sqrd + h.c3 * spline_time_cubed,
   h.c1 + h.c2 * (2 * spline_time) + h.c3 * (3 * spline_time_sqrd))

/-- Writes of AC_WPNav::set_spline_origin_and_destination that precede the
terrain offset lookup (lines 667 to 755): the acceleration sanity clamp, the
boundary velocity policy, the overshoot guard, the Hermite solve, the stored
endpoints and terrain flag and the slow down distance. The guard branch of
lines 738 to 747 is expressed by scaling each boundary velocity argument in
place, which yields the same call to update_spline_solution. -/
def set_spline_stage (e : Env) (now : ℕ) (origin destination : Vec3)
    (terrain_alt stopped_at_start : Bool) (seg_end_type : SplineSegEnd)
    (next_destination : Vec3) (s : State) : State :=
  let prev_segment_exists := s.reached_destination && decide (millis_sub now s.wp_last_update < 1000)
  let dt := s.pc.dt
  let wp_accel := if s.wp_accel_cmss ≤ 0 then WPNAV_ACCELERATION else s.wp_accel_cmss
  let spline_origin_vel :=
    if stopped_at_start || !prev_segment_exists then (destination - origin) * dt
    else if s.segment_type = SegmentType.straight then s.destination - s.origin
    else s.spline_destination_vel
  let spline_time0 :=
    if stopped_at_start || !prev_segment_exists then 0
    else if s.segment_type = SegmentType.straight then 0
    else if s.spline_time > 1 ∧ s.spline_time < 11 / 10 then s.spline_time - 1 else 0
  let spline_vel_scaler0 :=
    if stopped_at_start || !prev_segment_exists then 0
    else if s.segment_type = SegmentType.straight then vlen e.sqrtq s.pc.vel_target
    else s.spline_vel_scaler
  let spline_destination_vel :=
    match seg_end_type with
    | SplineSegEnd.stop => (destination - origin) * dt
    | SplineSegEnd.straight => next_destination - destination
    | SplineSegEnd.spline => next_destination - origin
  let fast :=
    match seg_end_type with
    | SplineSegEnd.stop => false
    | SplineSegEnd.straight => true
    | SplineSegEnd.spline => true
  let vel_len := vlen e.sqrtq spline_origin_vel + vlen e.sqrtq spline_destination_vel
  let pos_len := vlen e.sqrtq (destination - origin) * 4
  let hsol :=
    update_spline_solution origin destination
      (if vel_len > pos_len then spline_origin_vel * (pos_len / vel_len) else spline_origin_vel)
      (if vel_len > pos_len then spline_destination_vel * (pos_len / vel_len)
       else spline_destination_vel)
  { s with
    wp_accel_cmss := wp_accel
    spline_origin_vel := spline_origin_vel
    spline_time := spline_time0
    spline_vel_scaler := spline_vel_scaler0
    spline_destination_vel := spline_destination_vel
    fast_waypoint := fast
    hermite := hsol
    origin := origin
    destination := destination
    terrain_alt := terrain_alt
    slow_down_dist := slowDownDistVal s.pc.max_speed_xy wp_accel }

/-- Models AC_WPNav::set_spline_origin_and_destination (lines 665 to 776).
The boundary velocities, Hermite coefficients, endpoints, terrain flag, fast
waypoint flag and slow down distance are written (set_spline_stage) before
the terrain offset lookup, so a failing lookup leaves them overwritten, as
in the C code. -/
def set_spline_origin_and_destination (e : Env) (now : ℕ) (origin destination : Vec3)
    (terrain_alt stopped_at_start : Bool) (seg_end_type : SplineSegEnd)
    (next_destination : Vec3) (s : State) : Bool × State :=
  let s1 := set_spline_stage e now origin destination terrain_alt stopped_at_start
    seg_end_type next_destination s
  match (if terrain_alt then get_terrain_offset s1 e else some 0) with
  | none => (false, s1)
  | some terr_offset =>
    (true, { s1 with
      pc := { s1.pc with pos_target := origin + Vec3.mk 0 0 terr_offset }
      reached_destination := false
      segment_type := SegmentType.spline
      new_wp_destination := true
      wp_yaw_set := false
      track_length_xy := safe_sqrt e.sqrtq
        ((destination.x - origin.x) * (destination.x - origin.x)
          + (destination.y - origin.y) * (destination.y - origin.y)) })

/-- Models AC_WPNav::advance_spline_target_along_track (lines 825 to 930).
Note that the direction vector and the leash values are recomputed before
the terrain offset lookup, so a failing lookup leaves them overwritten. -/
def advance_spline_target_along_track (e : Env) (dt : ℚ) (s : State) : Bool × State :=
  if !s.reached_destination then
    let pv := calc_spline_pos_vel s.hermite s.spline_time
    let target_pos := pv.1
    let target_vel := pv.2
    let target_vel_length := vlen e.sqrtq target_vel
    if is_zero target_vel_length then (true, { s with reached_destination := true })
    else
      let s1 := calculate_wp_leash_length e
        { s with pos_delta_unit := target_vel / target_vel_length }
      let curr_pos := e.curr_pos
      match advance_terr_offset s1 e with
      | none => (false, s1)
      | some terr_offset =>
        let track_error0 := curr_pos - target_pos
        let track_error := { track_error0 with z := track_error0.z - terr_offset }
        let track_error_xy := norm2 e.sqrtq track_error.x track_error.y
        let track_error_z := |track_error.z|
        let leash_xy := s1.pc.leash_xy
        let leash_z := if track_error.z ≥ (0 : ℚ) then s1.pc.leash_up_z else s1.pc.leash_down_z
        let slack0 := min (s1.track_leash_length * (leash_z - track_error_z) / leash_z)
                          (s1.track_leash_length * (leash_xy - track_error_xy) / leash_xy)
        let track_leash_slack := if slack0 < 0 then 0 else slack0
        let spline_dist_to_wp := vlen e.sqrtq (s1.destination - target_pos)
        let vel_limit := if !is_zero dt then min s1.pc.max_speed_xy (track_leash_slack / dt)
                         else s1.pc.max_speed_xy
        let vs1 :=
          if !s1.fast_waypoint && decide (spline_dist_to_wp < s1.slow_down_dist) then
            safe_sqrt e.sqrtq (spline_dist_to_wp * 2 * s1.wp_accel_cmss)
          else if s1.spline_vel_scaler < vel_limit then
            s1.spline_vel_scaler + s1.wp_accel_cmss * dt
          else s1.spline_vel_scaler
        let vs2 := constrain_float vs1 0 vel_limit
        let spline_time_scale := vs2 / target_vel_length
        let new_target := { target_pos with z := target_pos.z + terr_offset }
        let track_error_xy_length := safe_sqrt e.sqrtq
          (track_error.x * track_error.x + track_error.y * track_error.y)
        let yaw1 :=
          if s1.track_length_xy ≥ WPNAV_YAW_DIST_MIN then
            if s1.pc.leash_xy < WPNAV_YAW_DIST_MIN then
              if !is_zero target_vel.x && !is_zero target_vel.y then
                e.atan2cd target_vel.y target_vel.x
              else s1.yaw
            else
              if track_error_xy_length
                 > min WPNAV_YAW_DIST_MIN (s1.pc.leash_xy * WPNAV_YAW_LEASH_PCT_MIN) then
                e.atan2cd (-track_error.y) (-track_error.x)
              else s1.yaw
          else s1.yaw
        let yaw_set1 :=
          if s1.track_length_xy ≥ WPNAV_YAW_DIST_MIN then
            if s1.pc.leash_xy < WPNAV_YAW_DIST_MIN then
              if !is_zero target_vel.x && !is_zero target_vel.y then true else s1.wp_yaw_set
            else
              if track_error_xy_length
                 > min WPNAV_YAW_DIST_MIN (s1.pc.leash_xy * WPNAV_YAW_LEASH_PCT_MIN) then true
              else s1.wp_yaw_set
          else s1.wp_yaw_set
        let new_spline_time := s1.spline_time + spline_time_scale * dt
        (true, { s1 with
          track_error_xy := track_error_xy
          spline_vel_scaler := vs2
          spline_time_scale := spline_time_scale
          pc := { s1.pc with pos_target := new_target }
          yaw := yaw1
          wp_yaw_set := yaw_set1
          spline_time := new_spline_time
          reached_destination := if new_spline_time ≥ 1 then true
                                 else s1.reached_destination })
  else (true, s)

/-- Models AC_WPNav::update_spline (lines 779 to 812): exit immediately when
the active segment is not a spline, otherwise run the speed ramp, advance
the spline target, handle the one shot feed forward freeze, run the
downstream controller and stamp the update time. -/
def update_spline (e : Env) (now : ℕ) (s : State) : Bool × State :=
  if s.segment_type ≠ SegmentType.spline then (false, s)
  else
    let dt := s.pc.dt
    let s1 := wp_speed_update dt s
    let r := advance_spline_target_along_track e dt s1
    let s2 := r.2
    let s3 := if s2.new_wp_destination then
                { s2 with new_wp_destination := false, pc := e.freeze_ff_z s2.pc }
              else s2
    let s4 := { s3 with pc := e.update_xy s3.pc }
    (r.1, { s4 with wp_last_update := now })

/-- Position controller fixture with the default caps of the parameter table
(speed 500, climb 250, descent 150, accel 100) and plausible leash values. -/
def pc0 : PC :=
  { pos_target := ⟨0, 0, 0⟩
    vel_target := ⟨0, 0, 0⟩
    max_speed_xy := 500
    max_accel_xy := 100
    max_accel_z := 100
    max_speed_up := 250
    max_speed_down := -150
    leash_xy := 300
    leash_up_z := 200
    leash_down_z := 150
    kP := 1
    dt := 1 / 100 }

/-- Square root fixture: a finite table that returns the exact square root
on every input exercised by the concrete states below (the real sqrtf is
external library code, so any environment instance is admissible; this one
agrees with the mathematical square root on the listed inputs). -/
def sqrtTab (q : ℚ) : ℚ :=
  if q = 0 then 0
  else if q = 1 then 1
  else if q = 9 / 25 then 3 / 5
  else if q = 16 / 25 then 4 / 5
  else if q = 100 then 10
  else if q = 3600 then 60
  else if q = 10000 then 100
  else if q = 1000000 then 1000
  else 0

/-- Environment fixture: vehicle at rest at the origin, square root given by
the exact table, opaque controller operations given by the identity. -/
def env0 : Env :=
  { curr_pos := ⟨0, 0, 0⟩
    curr_vel := ⟨0, 0, 0⟩
    inav_altitude := 0
    terrain_height := none
    stopping_point := ⟨0, 0, 0⟩
    sqrtq := sqrtTab
    atan2cd := fun _ _ => 0
    bearing_cd := fun _ _ => 0
    freeze_ff_z := id
    update_xy := id }

/-- Environment fixture for the seeding counterexample: current velocity
240 north and 320 up, so the velocity along a 3 4 5 slope is 400. -/
def env1 : Env := { env0 with curr_vel := ⟨240, 0, 320⟩ }

/-- State fixture: an idle core with a straight east segment of 1000 cm and
consistent derived values. -/
def st0 : State :=
  { wp_speed_cms := 500
    wp_radius_cm := 200
    wp_speed_up_cms := 250
    wp_speed_down_cms := 150
    wp_accel_cmss := 100
    wp_accel_z_cmss := 100
    rangefinder_use := true
    rangefinder_available := true
    rangefinder_healthy := true
    rangefinder_alt_cm := 0
    pc := pc0
    origin := ⟨0, 0, 0⟩
    destination := ⟨1000, 0, 0⟩
    terrain_alt := false
    pos_delta_unit := ⟨1, 0, 0⟩
    track_length := 1000
    track_length_xy := 1000
    track_desired := 0
    track_accel := 100
    track_speed := 500
    track_leash_length := 300
    limited_speed_xy_cms := 0
    slow_down_dist := 625
    track_error_xy := 0
    spline_origin_vel := ⟨0, 0, 0⟩
    spline_destination_vel := ⟨0, 0, 0⟩
    spline_time := 0
    spline_vel_scaler := 0
    spline_time_scale := 0
    hermite := ⟨⟨0, 0, 0⟩, ⟨0, 0, 0⟩, ⟨0, 0, 0⟩, ⟨0, 0, 0⟩⟩
    wp_desired_speed_xy_cms := 500
    wp_last_update := 0
    yaw := 0
    reached_destination := false
    fast_waypoint := false
    slowing_down := false
    recalc_wp_leash := false
    new_wp_destination := false
    wp_yaw_set := false
    segment_type := SegmentType.straight }

/-- State fixture whose terrain offset lookup fails: the rangefinder is
connected and enabled but unhealthy, and terrain altitudes are in use. -/
def stTerrFail : State :=
  { st0 with
    terrain_alt := true
    rangefinder_healthy := false
    new_wp_destination := true }

/-- State fixture on an active spline segment whose terrain offset lookup
fails; the Hermite velocity at spline time zero is the unit east vector. -/
def stSplineFail : State :=
  { stTerrFail with
    segment_type := SegmentType.spline
    hermite := ⟨⟨0, 0, 0⟩, ⟨1, 0, 0⟩, ⟨0, 0, 0⟩, ⟨0, 0, 0⟩⟩ }

/-- State fixture violating the slow down invariant precondition setup for
the spline setter counterexample: stale degenerate track projections. -/
def stStale : State :=
  { st0 with
    track_accel := 0
    track_speed := 0
    slow_down_dist := 0 }

/-- State fixture with the reached flag already set. -/
def stReached : State := { st0 with reached_destination := true }

/-- State fixture with a pending speed up request from 500 to 800. -/
def stRamp : State := { st0 with wp_desired_speed_xy_cms := 800 }

/-- Statement of the leash projection taken from the words of the spec
(section 4.3 and the text of claim C3): with uxy the hypotenuse of the x
and y components and uz the magnitude of the z component, the degenerate
case pins the values, the single axis cases divide the matching caps by
the matching component, and the mixed case takes the minimum of the two;
the vertical axis uses the up values when the z component is not negative
and the down magnitudes otherwise. Returns (accel, speed, leash). -/
def leash_projection_spec (f : ℚ → ℚ) (u : Vec3)
    (accel_xy vmax_xy leash_xy accel_z vmax_up vmax_down leash_up leash_down : ℚ) :
    ℚ × ℚ × ℚ :=
  let uxy := f (u.x * u.x + u.y * u.y)
  let uz := |u.z|
  if uz = 0 ∧ uxy = 0 then (0, 0, WPNAV_LEASH_LENGTH_MIN)
  else if uz = 0 then (accel_xy / uxy, vmax_xy / uxy, leash_xy / uxy)
  else if uxy = 0 then
    if u.z ≥ 0 then (accel_z / uz, vmax_up / uz, leash_up / uz)
    else (accel_z / uz, vmax_down / uz, leash_down / uz)
  else if u.z ≥ 0 then
    (min (accel_z / uz) (accel_xy / uxy), min (vmax_up / uz) (vmax_xy / uxy),
     min (leash_up / uz) (leash_xy / uxy))
  else
    (min (accel_z / uz) (accel_xy / uxy), min (vmax_down / uz) (vmax_xy / uxy),
     min (leash_down / uz) (leash_xy / uxy))

/-- Closed form of slowDownDistVal with the positivity guard stated the way
the spec states it. -/
theorem slowDownDistVal_eq (speed accel : ℚ) :
    slowDownDistVal speed accel
      = if 0 < accel then speed * speed / (4 * accel) else 0 := by
  unfold slowDownDistVal
  rcases le_or_lt accel 0 with h | h
  · simp [h, not_lt.mpr h]
  · simp [h, not_le.mpr h]

/-- Truth table of the reached decision nest. -/
theorem reached_update_iff (reached fast : Bool) (td len dist radius : ℚ) :
    reached_update reached fast td len dist radius = true
      ↔ (reached = true ∨ (td ≥ len ∧ (fast = true ∨ dist ≤ radius))) := by
  unfold reached_update
  cases reached <;> cases fast <;>
    by_cases h1 : td ≥ len <;> by_cases h2 : dist ≤ radius <;>
      simp [h1, h2]

/-- Bounds of the zero floored clamp. -/
theorem constrain_float_bounds (v hi : ℚ) (h : 0 ≤ hi) :
    0 ≤ constrain_float v 0 hi ∧ constrain_float v 0 hi ≤ hi := by
  unfold constrain_float
  by_cases h1 : v < 0
  · simp [h1, h]
  · by_cases h2 : v > hi
    · simp [h1, h2, h]
    · simp [h1, h2]
      constructor
      · exact le_of_not_lt h1
      · exact le_of_not_lt h2

/-- The leash recalculation rewrites only the projected track values, the
slow down distance and the recalc flag; the position controller view is
untouched. -/
theorem calc_leash_pc (e : Env) (s : State) :
    (calculate_wp_leash_length e s).pc = s.pc := rfl

/-- The leash recalculation leaves the reached flag alone. -/
theorem calc_leash_reached (e : Env) (s : State) :
    (calculate_wp_leash_length e s).reached_destination = s.reached_destination := rfl

/-- The leash recalculation leaves the terrain flag alone. -/
theorem calc_leash_terrain_alt (e : Env) (s : State) :
    (calculate_wp_leash_length e s).terrain_alt = s.terrain_alt := rfl

/-- The leash recalculation does not touch the rangefinder members, so the
terrain offset lookup is unchanged. -/
theorem get_terrain_offset_calc_leash (e e2 : Env) (s : State) :
    get_terrain_offset (calculate_wp_leash_length e s) e2 = get_terrain_offset s e2 := rfl

/-- The speed ramp leaves the reached flag alone. -/
theorem wp_speed_update_reached (dt : ℚ) (s : State) :
    (wp_speed_update dt s).reached_destination = s.reached_destination := by
  unfold wp_speed_update
  dsimp only
  split <;> rfl

/-- The speed ramp leaves the terrain flag alone. -/
theorem wp_speed_update_terrain_alt (dt : ℚ) (s : State) :
    (wp_speed_update dt s).terrain_alt = s.terrain_alt := by
  unfold wp_speed_update
  dsimp only
  split <;> rfl

/-- The speed ramp leaves the segment type alone. -/
theorem wp_speed_update_segment (dt : ℚ) (s : State) :
    (wp_speed_update dt s).segment_type = s.segment_type := by
  unfold wp_speed_update
  dsimp only
  split <;> rfl

/-- The speed ramp leaves the Hermite coefficients alone. -/
theorem wp_speed_update_hermite (dt : ℚ) (s : State) :
    (wp_speed_update dt s).hermite = s.hermite := by
  unfold wp_speed_update
  dsimp only
  split <;> rfl

/-- The speed ramp leaves the spline time alone. -/
theorem wp_speed_update_spline_time (dt : ℚ) (s : State) :
    (wp_speed_update dt s).spline_time = s.spline_time := by
  unfold wp_speed_update
  dsimp only
  split <;> rfl

/-- The speed ramp does not touch the rangefinder members, so the terrain
offset lookup is unchanged. -/
theorem get_terrain_offset_wp_speed_update (dt : ℚ) (s : State) (e : Env) :
    get_terrain_offset (wp_speed_update dt s) e = get_terrain_offset s e := by
  unfold wp_speed_update
  dsimp only
  split <;> rfl

/-- The leash check leaves the reached flag alone. -/
theorem check_wp_leash_reached (e : Env) (s : State) :
    (check_wp_leash_length e s).reached_destination = s.reached_destination := by
  unfold check_wp_leash_length
  split <;> rfl

/-- A failing terrain lookup makes the straight advancer return false with
the state untouched (lines 330 to 333 precede every member write). -/
theorem advance_wp_fail (e : Env) (dt : ℚ) (s : State) (hta : s.terrain_alt = true)
    (hterr : get_terrain_offset s e = none) :
    advance_wp_target_along_track e dt s = (false, s) := by
  unfold advance_wp_target_along_track advance_terr_offset
  rw [hta]
  simp [hterr]

/-- A failing terrain lookup makes the spline advancer return false, as long
as the segment is still in progress and the spline velocity at the current
spline time is not degenerate. -/
theorem advance_spline_fail (e : Env) (dt : ℚ) (s : State)
    (hr : s.reached_destination = false) (hta : s.terrain_alt = true)
    (hterr : get_terrain_offset s e = none)
    (hv : vlen e.sqrtq (calc_spline_pos_vel s.hermite s.spline_time).2 ≠ 0) :
    (advance_spline_target_along_track e dt s).1 = false := by
  have hopt : advance_terr_offset
      (calculate_wp_leash_length e
        { s with pos_delta_unit :=
            (calc_spline_pos_vel s.hermite s.spline_time).2
              / vlen e.sqrtq (calc_spline_pos_vel s.hermite s.spline_time).2 }) e = none := by
    unfold advance_terr_offset
    rw [get_terrain_offset_calc_leash]
    have h2 : (calculate_wp_leash_length e
        { s with pos_delta_unit :=
            (calc_spline_pos_vel s.hermite s.spline_time).2
              / vlen e.sqrtq (calc_spline_pos_vel s.hermite s.spline_time).2 }).terrain_alt
          = true := hta
    rw [h2]
    simpa using hterr
  unfold advance_spline_target_along_track
  dsimp only
  rw [if_pos (show (!s.reached_destination) = true by rw [hr]; rfl)]
  rw [if_neg (show ¬ (is_zero (vlen e.sqrtq (calc_spline_pos_vel s.hermite s.spline_time).2)
    = true) by simp [is_zero, hv])]
  rw [hopt]

/-- The reached decision keeps an already set flag. -/
theorem reached_update_true (fast : Bool) (td len dist radius : ℚ) :
    reached_update true fast td len dist radius = true := rfl

/-- The straight advancer never clears the reached flag. -/
theorem advance_wp_reached_mono (e : Env) (dt : ℚ) (s : State)
    (hr : s.reached_destination = true) :
    (advance_wp_target_along_track e dt s).2.reached_destination = true := by
  unfold advance_wp_target_along_track
  rcases h : advance_terr_offset s e with _ | off
  · exact hr
  · dsimp only
    rw [hr]
    exact reached_update_true _ _ _ _ _

/-- The straight tick never clears the reached flag. -/
theorem update_wpnav_reached_mono (e : Env) (now : ℕ) (s : State)
    (hr : s.reached_destination = true) :
    (update_wpnav e now s).2.reached_destination = true := by
  unfold update_wpnav
  dsimp only
  rw [check_wp_leash_reached]
  dsimp only
  split
  · exact advance_wp_reached_mono _ _ _ (by rw [wp_speed_update_reached]; exact hr)
  · exact advance_wp_reached_mono _ _ _ (by rw [wp_speed_update_reached]; exact hr)

/-- The Hermite evaluation at time zero returns the first endpoint of the
solved coefficients. -/
theorem hermite_endpoint_start (o d v0 v1 : Vec3) :
    (calc_spline_pos_vel (update_spline_solution o d v0 v1) 0).1 = o := by
  unfold calc_spline_pos_vel update_spline_solution
  dsimp only
  apply Vec3.ext_fields <;> simp

/-- The Hermite evaluation at time one returns the second endpoint of the
solved coefficients. -/
theorem hermite_endpoint_end (o d v0 v1 : Vec3) :
    (calc_spline_pos_vel (update_spline_solution o d v0 v1) 1).1 = d := by
  unfold calc_spline_pos_vel update_spline_solution
  dsimp only
  apply Vec3.ext_fields <;> simp <;> ring

/-- Both results of the spline setter carry the Hermite coefficients written
by the stage, whether or not the terrain lookup succeeds. -/
theorem set_spline_result_hermite (e : Env) (now : ℕ) (o d : Vec3) (ta st : Bool)
    (ty : SplineSegEnd) (nd : Vec3) (s : State) :
    ((set_spline_origin_and_destination e now o d ta st ty nd s).2).hermite
      = (set_spline_stage e now o d ta st ty nd s).hermite := by
  unfold set_spline_origin_and_destination
  dsimp only
  split
  · rfl
  · rfl

/-- Both results of the spline setter carry the slow down distance written
by the stage, whether or not the terrain lookup succeeds. -/
theorem set_spline_result_sdd (e : Env) (now : ℕ) (o d : Vec3) (ta st : Bool)
    (ty : SplineSegEnd) (nd : Vec3) (s : State) :
    ((set_spline_origin_and_destination e now o d ta st ty nd s).2).slow_down_dist
      = slowDownDistVal s.pc.max_speed_xy
          (if s.wp_accel_cmss ≤ 0 then WPNAV_ACCELERATION else s.wp_accel_cmss) := by
  unfold set_spline_origin_and_destination
  dsimp only
  split
  · rfl
  · rfl

/-- C3: calculate_wp_leash_length computes exactly the piecewise projection
stated by the spec: the degenerate direction pins accel and speed to zero
and the leash to the floor; a purely horizontal direction divides the xy
caps by the horizontal component; a purely vertical direction divides the
matching vertical caps (up branch for a non negative z component, down
branch otherwise) by the vertical magnitude; the mixed case takes the
minimum of the two projections, component by component. -/
theorem C3_leash_projection_matches_spec (e : Env) (s : State) :
    ((calculate_wp_leash_length e s).track_accel,
     (calculate_wp_leash_length e s).track_speed,
     (calculate_wp_leash_length e s).track_leash_length)
    = leash_projection_spec e.sqrtq s.pos_delta_unit s.wp_accel_cmss s.pc.max_speed_xy
        s.pc.leash_xy s.wp_accel_z_cmss s.pc.max_speed_up |s.pc.max_speed_down|
        s.pc.leash_up_z s.pc.leash_down_z := by
  unfold calculate_wp_leash_length leash_projection_spec norm2
  dsimp only
  split_ifs <;> simp_all [is_zero, abs_eq_zero]

/-- C4: the slow down distance relation of the spec holds after every leash
recalculation (slow_down_dist equals track_speed squared over four times
track_accel when the latter is positive, zero otherwise), but the spline
setter instead derives the slow down distance from the controller xy speed
cap and the configured acceleration, regardless of the stored track
projections. -/
theorem C4_slow_down_dist_after_ops (e : Env) (now : ℕ)
    (origin destination next_destination : Vec3) (terrain_alt stopped_at_start : Bool)
    (ty : SplineSegEnd) (s : State) :
    ((calculate_wp_leash_length e s).slow_down_dist
      = (if 0 < (calculate_wp_leash_length e s).track_accel then
          (calculate_wp_leash_length e s).track_speed
            * (calculate_wp_leash_length e s).track_speed
            / (4 * (calculate_wp_leash_length e s).track_accel)
         else 0))
    ∧ ((set_spline_origin_and_destination e now origin destination terrain_alt
          stopped_at_start ty next_destination s).2.slow_down_dist
        = s.pc.max_speed_xy * s.pc.max_speed_xy
            / (4 * (if s.wp_accel_cmss ≤ 0 then WPNAV_ACCELERATION else s.wp_accel_cmss))) := by
  constructor
  · exact slowDownDistVal_eq _ _
  · have hposA : 0 < (if s.wp_accel_cmss ≤ 0 then WPNAV_ACCELERATION else s.wp_accel_cmss) := by
      by_cases hacc : s.wp_accel_cmss ≤ 0
      · rw [if_pos hacc]
        norm_num [WPNAV_ACCELERATION]
      · rw [if_neg hacc]
        exact lt_of_not_le hacc
    rw [set_spline_result_sdd, slowDownDistVal_eq, if_pos hposA]

/-- C4 counterexample: starting from a state whose stale track projections
are degenerate, a successful spline setter call leaves slow_down_dist at
625 while track_accel is zero, so the claimed invariant relation fails
right after a public operation. -/
theorem C4_counterexample :
    (set_spline_origin_and_destination env0 0 ⟨0, 0, 0⟩ ⟨1000, 0, 0⟩ false true
        SplineSegEnd.stop ⟨0, 0, 0⟩ stStale).1 = true
    ∧ ¬ ((set_spline_origin_and_destination env0 0 ⟨0, 0, 0⟩ ⟨1000, 0, 0⟩ false true
          SplineSegEnd.stop ⟨0, 0, 0⟩ stStale).2.slow_down_dist
        = (if 0 < (set_spline_origin_and_destination env0 0 ⟨0, 0, 0⟩ ⟨1000, 0, 0⟩ false true
              SplineSegEnd.stop ⟨0, 0, 0⟩ stStale).2.track_accel then
            (set_spline_origin_and_destination env0 0 ⟨0, 0, 0⟩ ⟨1000, 0, 0⟩ false true
              SplineSegEnd.stop ⟨0, 0, 0⟩ stStale).2.track_speed
              * (set_spline_origin_and_destination env0 0 ⟨0, 0, 0⟩ ⟨1000, 0, 0⟩ false true
                SplineSegEnd.stop ⟨0, 0, 0⟩ stStale).2.track_speed
              / (4 * (set_spline_origin_and_destination env0 0 ⟨0, 0, 0⟩ ⟨1000, 0, 0⟩ false true
                SplineSegEnd.stop ⟨0, 0, 0⟩ stStale).2.track_accel)
           else 0)) := by
  constructor
  · rfl
  · have h1 : (set_spline_origin_and_destination env0 0 ⟨0, 0, 0⟩ ⟨1000, 0, 0⟩ false true
        SplineSegEnd.stop ⟨0, 0, 0⟩ stStale).2.slow_down_dist = 625 := by
      rw [set_spline_result_sdd]
      norm_num [slowDownDistVal, stStale, st0, pc0, WPNAV_ACCELERATION]
    have h2 : (set_spline_origin_and_destination env0 0 ⟨0, 0, 0⟩ ⟨1000, 0, 0⟩ false true
        SplineSegEnd.stop ⟨0, 0, 0⟩ stStale).2.track_accel = 0 := rfl
    rw [h1, h2]
    norm_num

/-- C6: the Hermite coefficients produced by update_spline_solution place
the curve at the origin for spline time zero and at the destination for
spline time one, for every pair of boundary velocities (scaled by the
overshoot guard or not); in particular both endpoint identities hold for
the coefficients stored by set_spline_origin_and_destination with
stopped_at_start true. -/
theorem C6_hermite_endpoints (o d v0 v1 : Vec3) (e : Env) (now : ℕ) (ta : Bool)
    (ty : SplineSegEnd) (nd : Vec3) (s : State) :
    ((calc_spline_pos_vel (update_spline_solution o d v0 v1) 0).1 = o
      ∧ (calc_spline_pos_vel (update_spline_solution o d v0 v1) 1).1 = d)
    ∧ ((calc_spline_pos_vel
          ((set_spline_origin_and_destination e now o d ta true ty nd s).2).hermite 0).1 = o
      ∧ (calc_spline_pos_vel
          ((set_spline_origin_and_destination e now o d ta true ty nd s).2).hermite 1).1 = d) := by
  refine ⟨⟨hermite_endpoint_start o d v0 v1, hermite_endpoint_end o d v0 v1⟩, ?_, ?_⟩
  · rw [set_spline_result_hermite]
    exact hermite_endpoint_start o d _ _
  · rw [set_spline_result_hermite]
    exact hermite_endpoint_end o d _ _

/-- C9: with terrain_alt false the straight setter cannot fail, so it
returns true for every origin, destination and state; consequently the
vector overload of set_wp_destination with terrain_alt false and the NED
overload always return true as well. -/
theorem C9_non_terrain_setters_succeed (e : Env) (now : ℕ) (o d v : Vec3) (s : State) :
    (set_wp_origin_and_destination e o d false s).1 = true
    ∧ (set_wp_destination_vec e now d false s).1 = true
    ∧ (set_wp_destination_NED e now v s).1 = true := by
  exact ⟨rfl, rfl, rfl⟩

/-- C10: when the active segment is straight, update_spline returns false
immediately and changes nothing at all; and on a spline segment the bool
returned by update_spline is exactly the bool returned by the spline
advancer, so a false return is indistinguishable from a terrain failure of
the advancer. -/
theorem C10_update_spline_straight_early_exit (e : Env) (now : ℕ) (s : State) :
    (s.segment_type = SegmentType.straight → update_spline e now s = (false, s))
    ∧ (s.segment_type = SegmentType.spline →
        (update_spline e now s).1
          = (advance_spline_target_along_track e s.pc.dt (wp_speed_update s.pc.dt s)).1) := by
  constructor
  · intro h
    unfold update_spline
    rw [if_pos (show s.segment_type ≠ SegmentType.spline by rw [h]; simp)]
  · intro h
    unfold update_spline
    rw [if_neg (show ¬ s.segment_type ≠ SegmentType.spline by rw [h]; simp)]

/-- C10 witness: on the straight fixture the spline tick is a no op. -/
theorem C10_witness : update_spline env0 0 st0 = (false, st0) :=
  (C10_update_spline_straight_early_exit env0 0 st0).1 rfl

/-- C8: when the desired speed equals the current cap the ramp changes
nothing; otherwise the new cap moves toward the desired speed by at most
wp_accel_cmss times dt, never crossing it, landing exactly on it when it is
within reach, and the recalc flag is raised. -/
theorem C8_wp_speed_update_ramp (dt : ℚ) (s : State)
    (ha : 0 ≤ s.wp_accel_cmss * dt) :
    (s.wp_desired_speed_xy_cms = s.pc.max_speed_xy → wp_speed_update dt s = s)
    ∧ (s.wp_desired_speed_xy_cms ≠ s.pc.max_speed_xy →
        |(wp_speed_update dt s).pc.max_speed_xy - s.pc.max_speed_xy| ≤ s.wp_accel_cmss * dt
        ∧ min s.pc.max_speed_xy s.wp_desired_speed_xy_cms
            ≤ (wp_speed_update dt s).pc.max_speed_xy
        ∧ (wp_speed_update dt s).pc.max_speed_xy
            ≤ max s.pc.max_speed_xy s.wp_desired_speed_xy_cms
        ∧ (|s.wp_desired_speed_xy_cms - s.pc.max_speed_xy| ≤ s.wp_accel_cmss * dt →
            (wp_speed_update dt s).pc.max_speed_xy = s.wp_desired_speed_xy_cms)
        ∧ (wp_speed_update dt s).recalc_wp_leash = true) := by
  constructor
  · intro h
    unfold wp_speed_update
    rw [if_pos (show is_equal s.wp_desired_speed_xy_cms s.pc.max_speed_xy = true by
      simp [is_equal, h])]
  · intro h
    have hneg : ¬ is_equal s.wp_desired_speed_xy_cms s.pc.max_speed_xy = true := by
      simp [is_equal, h]
    have hN : (wp_speed_update dt s).pc.max_speed_xy
        = (if s.wp_desired_speed_xy_cms > s.pc.max_speed_xy then
            (if s.pc.max_speed_xy + s.wp_accel_cmss * dt > s.wp_desired_speed_xy_cms
             then s.wp_desired_speed_xy_cms
             else s.pc.max_speed_xy + s.wp_accel_cmss * dt)
           else if s.wp_desired_speed_xy_cms < s.pc.max_speed_xy then
            (if s.pc.max_speed_xy - s.wp_accel_cmss * dt < s.wp_desired_speed_xy_cms
             then s.wp_desired_speed_xy_cms
             else s.pc.max_speed_xy - s.wp_accel_cmss * dt)
           else s.pc.max_speed_xy) := by
      unfold wp_speed_update
      rw [if_neg hneg]
    have hrec : (wp_speed_update dt s).recalc_wp_leash = true := by
      unfold wp_speed_update
      rw [if_neg hneg]
    refine ⟨?_, ?_, ?_, ?_, hrec⟩
    · rw [hN]
      split_ifs <;> (rw [abs_sub_le_iff]; exact ⟨by linarith, by linarith⟩)
    · rw [hN, min_le_iff]
      split_ifs <;> first | (left; linarith) | (right; linarith)
    · rw [hN, le_max_iff]
      split_ifs <;> first | (left; linarith) | (right; linarith)
    · intro hc
      rw [abs_sub_le_iff] at hc
      obtain ⟨hc1, hc2⟩ := hc
      rw [hN]
      split_ifs <;> first | rfl | linarith

/-- C8 witness: ramping from a cap of 500 toward a request of 800 with
accel 100 and dt 1 moves the cap by at most 100. -/
theorem C8_witness :
    |(wp_speed_update 1 stRamp).pc.max_speed_xy - stRamp.pc.max_speed_xy|
      ≤ stRamp.wp_accel_cmss * 1 :=
  ((C8_wp_speed_update_ramp 1 stRamp (by norm_num [stRamp, st0])).2
    (by norm_num [stRamp, st0, pc0])).1

/-- C5 amended: a successful call to set_wp_origin_and_destination seeds
limited_speed_xy_cms inside the interval from zero to the controller xy
speed cap (assumed non negative); the original upper bound track_speed does
not hold, as the seeding clamps against max_speed_xy instead. -/
theorem C5_limited_speed_seed_bounds (e : Env) (o d : Vec3) (b : Bool) (s : State)
    (hms : 0 ≤ s.pc.max_speed_xy)
    (h : (set_wp_origin_and_destination e o d b s).1 = true) :
    0 ≤ (set_wp_origin_and_destination e o d b s).2.limited_speed_xy_cms
    ∧ (set_wp_origin_and_destination e o d b s).2.limited_speed_xy_cms
        ≤ s.pc.max_speed_xy := by
  unfold set_wp_origin_and_destination at h ⊢
  dsimp only at h ⊢
  rcases hopt : (if b = true then get_terrain_offset (set_wp_stage e o d b s) e else some 0)
    with _ | off
  · rw [hopt] at h
    exact absurd h (by simp)
  · dsimp only
    rw [show (set_wp_stage e o d b s).pc = s.pc from rfl]
    exact constrain_float_bounds _ _ hms

/-- C5 counterexample: a successful straight setter call on a 3 4 5 slope
with the vehicle moving at 400 along the track seeds
limited_speed_xy_cms at 400, above the projected track_speed of 312.5, so
the claimed invariant fails immediately after a public operation. -/
theorem C5_counterexample :
    (set_wp_origin_and_destination env1 ⟨0, 0, 0⟩ ⟨60, 0, 80⟩ false st0).1 = true
    ∧ ¬ ((set_wp_origin_and_destination env1 ⟨0, 0, 0⟩ ⟨60, 0, 80⟩ false
          st0).2.limited_speed_xy_cms
        ≤ (set_wp_origin_and_destination env1 ⟨0, 0, 0⟩ ⟨60, 0, 80⟩ false st0).2.track_speed) := by
  constructor
  · rfl
  · norm_num [set_wp_origin_and_destination, set_wp_stage, calculate_wp_leash_length, norm2,
      vlen, safe_sqrt, is_zero, sqrtTab, env1, env0, st0, pc0, slowDownDistVal, dot,
      constrain_float, abs_of_pos, abs_of_nonneg, min_def]

/-- C5 witness: the bounds of the amended statement hold on the
counterexample input itself. -/
theorem C5_witness :
    0 ≤ (set_wp_origin_and_destination env1 ⟨0, 0, 0⟩ ⟨60, 0, 80⟩ false
          st0).2.limited_speed_xy_cms
    ∧ (set_wp_origin_and_destination env1 ⟨0, 0, 0⟩ ⟨60, 0, 80⟩ false
          st0).2.limited_speed_xy_cms ≤ st0.pc.max_speed_xy :=
  C5_limited_speed_seed_bounds env1 ⟨0, 0, 0⟩ ⟨60, 0, 80⟩ false st0
    (by norm_num [st0, pc0]) rfl

/-- C1 amended: when the terrain offset lookup fails, both setters return
false and leave the position controller view, the reached, segment type and
new destination flags, track_desired and limited_speed_xy_cms untouched;
but they have already overwritten origin, destination and the terrain flag
(and, for the straight setter, the direction vector and leash values; for
the spline setter, the boundary velocities, Hermite coefficients and the
fast waypoint flag). -/
theorem C1_setters_fail_after_partial_writes (e : Env) (now : ℕ) (o d nd : Vec3)
    (stopped : Bool) (ty : SplineSegEnd) (s : State)
    (hterr : get_terrain_offset s e = none) :
    ((set_wp_origin_and_destination e o d true s).1 = false
      ∧ (set_wp_origin_and_destination e o d true s).2.pc = s.pc
      ∧ (set_wp_origin_and_destination e o d true s).2.track_desired = s.track_desired
      ∧ (set_wp_origin_and_destination e o d true s).2.limited_speed_xy_cms
          = s.limited_speed_xy_cms
      ∧ (set_wp_origin_and_destination e o d true s).2.reached_destination
          = s.reached_destination
      ∧ (set_wp_origin_and_destination e o d true s).2.fast_waypoint = s.fast_waypoint
      ∧ (set_wp_origin_and_destination e o d true s).2.slowing_down = s.slowing_down
      ∧ (set_wp_origin_and_destination e o d true s).2.segment_type = s.segment_type
      ∧ (set_wp_origin_and_destination e o d true s).2.new_wp_destination
          = s.new_wp_destination
      ∧ (set_wp_origin_and_destination e o d true s).2.origin = o
      ∧ (set_wp_origin_and_destination e o d true s).2.destination = d
      ∧ (set_wp_origin_and_destination e o d true s).2.terrain_alt = true)
    ∧ ((set_spline_origin_and_destination e now o d true stopped ty nd s).1 = false
      ∧ (set_spline_origin_and_destination e now o d true stopped ty nd s).2.pc = s.pc
      ∧ (set_spline_origin_and_destination e now o d true stopped ty nd s).2.track_desired
          = s.track_desired
      ∧ (set_spline_origin_and_destination e now o d true stopped ty nd
          s).2.limited_speed_xy_cms = s.limited_speed_xy_cms
      ∧ (set_spline_origin_and_destination e now o d true stopped ty nd
          s).2.reached_destination = s.reached_destination
      ∧ (set_spline_origin_and_destination e now o d true stopped ty nd s).2.segment_type
          = s.segment_type
      ∧ (set_spline_origin_and_destination e now o d true stopped ty nd
          s).2.new_wp_destination = s.new_wp_destination
      ∧ (set_spline_origin_and_destination e now o d true stopped ty nd s).2.origin = o
      ∧ (set_spline_origin_and_destination e now o d true stopped ty nd s).2.destination = d
      ∧ (set_spline_origin_and_destination e now o d true stopped ty nd s).2.terrain_alt
          = true) := by
  have h1 : (if (true : Bool) = true then get_terrain_offset (set_wp_stage e o d true s) e
      else some 0) = none := by
    rw [if_pos rfl]
    rw [show get_terrain_offset (set_wp_stage e o d true s) e = get_terrain_offset s e
      from rfl]
    exact hterr
  have h2 : (if (true : Bool) = true then get_terrain_offset
      (set_spline_stage e now o d true stopped ty nd s) e else some 0) = none := by
    rw [if_pos rfl]
    rw [show get_terrain_offset (set_spline_stage e now o d true stopped ty nd s) e
      = get_terrain_offset s e from rfl]
    exact hterr
  unfold set_wp_origin_and_destination set_spline_origin_and_destination
  dsimp only
  rw [h1, h2]
  exact ⟨⟨rfl, rfl, rfl, rfl, rfl, rfl, rfl, rfl, rfl, rfl, rfl, rfl⟩,
         rfl, rfl, rfl, rfl, rfl, rfl, rfl, rfl, rfl, rfl⟩

/-- C1 counterexample: a failing straight setter call has already stored the
new destination, so the stored destination differs from its value before
the call, refuting the no mutation claim. -/
theorem C1_counterexample :
    (set_wp_origin_and_destination env0 ⟨0, 0, 0⟩ ⟨100, 0, 0⟩ true stTerrFail).1 = false
    ∧ ¬ ((set_wp_origin_and_destination env0 ⟨0, 0, 0⟩ ⟨100, 0, 0⟩ true
          stTerrFail).2.destination.x = stTerrFail.destination.x) := by
  constructor
  · rfl
  · rw [show (set_wp_origin_and_destination env0 ⟨0, 0, 0⟩ ⟨100, 0, 0⟩ true
        stTerrFail).2.destination.x = (100 : ℚ) from rfl]
    rw [show stTerrFail.destination.x = (1000 : ℚ) from rfl]
    norm_num

/-- C1 witness: the amended statement applies to the terrain failure
fixture; in particular the failing spline setter returns false. -/
theorem C1_witness :
    (set_spline_origin_and_destination env0 0 ⟨0, 0, 0⟩ ⟨100, 0, 0⟩ true true
        SplineSegEnd.stop ⟨0, 0, 0⟩ stTerrFail).1 = false :=
  (C1_setters_fail_after_partial_writes env0 0 ⟨0, 0, 0⟩ ⟨100, 0, 0⟩ ⟨0, 0, 0⟩ true
      SplineSegEnd.stop stTerrFail rfl).2.1

/-- C2 amended: on a tick with terrain data missing, the straight advancer
fails without touching any state, and both update entry points return false
for the tick (the spline path needs a live segment with a non degenerate
spline velocity to reach its terrain check); the surrounding update calls
still mutate other state, as the counterexample shows. -/
theorem C2_terrain_failure_tick (e : Env) (dt : ℚ) (now : ℕ) (s : State)
    (hta : s.terrain_alt = true) (hterr : get_terrain_offset s e = none) :
    advance_wp_target_along_track e dt s = (false, s)
    ∧ (update_wpnav e now s).1 = false
    ∧ (s.segment_type = SegmentType.spline → s.reached_destination = false →
        vlen e.sqrtq (calc_spline_pos_vel s.hermite s.spline_time).2 ≠ 0 →
        (update_spline e now s).1 = false) := by
  refine ⟨advance_wp_fail e dt s hta hterr, ?_, ?_⟩
  · unfold update_wpnav
    dsimp only
    have key : ∀ (s2 : State), s2.terrain_alt = true → get_terrain_offset s2 e = none →
        (advance_wp_target_along_track e s.pc.dt s2).1 = false := by
      intro s2 a b
      rw [advance_wp_fail e s.pc.dt s2 a b]
    apply key
    · rw [wp_speed_update_terrain_alt]
      exact hta
    · rw [get_terrain_offset_wp_speed_update]
      exact hterr
  · intro hseg hreach hv
    unfold update_spline
    rw [if_neg (show ¬ s.segment_type ≠ SegmentType.spline by rw [hseg]; simp)]
    dsimp only
    refine advance_spline_fail _ _ _ ?_ ?_ ?_ ?_
    · rw [wp_speed_update_reached]
      exact hreach
    · rw [wp_speed_update_terrain_alt]
      exact hta
    · rw [get_terrain_offset_wp_speed_update]
      exact hterr
    · rw [wp_speed_update_hermite, wp_speed_update_spline_time]
      exact hv

/-- C2 counterexample: a terrain failure tick of update_wpnav returns false
yet still clears the new_wp_destination flag, so the internal state is not
unchanged by the failing tick. -/
theorem C2_counterexample :
    (update_wpnav env0 7 stTerrFail).1 = false
    ∧ ¬ ((update_wpnav env0 7 stTerrFail).2.new_wp_destination
        = stTerrFail.new_wp_destination) := by
  constructor
  · norm_num [update_wpnav, wp_speed_update, is_equal, advance_wp_target_along_track,
      advance_terr_offset, get_terrain_offset, terrain_offset_fields, check_wp_leash_length,
      env0, st0, stTerrFail, pc0]
  · rw [show (update_wpnav env0 7 stTerrFail).2.new_wp_destination = false by
      norm_num [update_wpnav, wp_speed_update, is_equal, advance_wp_target_along_track,
        advance_terr_offset, get_terrain_offset, terrain_offset_fields, check_wp_leash_length,
        env0, st0, stTerrFail, pc0]]
    rw [show stTerrFail.new_wp_destination = true from rfl]
    simp

/-- C2 witness: the amended statement applies to the spline terrain failure
fixture. -/
theorem C2_witness :
    advance_wp_target_along_track env0 1 stSplineFail = (false, stSplineFail)
    ∧ (update_wpnav env0 5 stSplineFail).1 = false
    ∧ (update_spline env0 5 stSplineFail).1 = false := by
  refine ⟨(C2_terrain_failure_tick env0 1 5 stSplineFail rfl rfl).1,
          (C2_terrain_failure_tick env0 1 5 stSplineFail rfl rfl).2.1,
          (C2_terrain_failure_tick env0 1 5 stSplineFail rfl rfl).2.2 rfl rfl ?_⟩
  norm_num [vlen, calc_spline_pos_vel, sqrtTab, env0, stSplineFail, stTerrFail, st0]

/-- C7: on a successful straight advance, the reached flag afterwards is
set exactly when it was already set, or when the advanced track position
has reached the track length and either the waypoint is fast or the
terrain adjusted vehicle position is within the acceptance radius of the
destination; moreover a straight tick never clears an already set flag. -/
theorem C7_reached_destination_flip (e : Env) (dt : ℚ) (now : ℕ) (s : State)
    (h : (advance_wp_target_along_track e dt s).1 = true) :
    ((advance_wp_target_along_track e dt s).2.reached_destination = true ↔
      (s.reached_destination = true
        ∨ ((advance_wp_target_along_track e dt s).2.track_desired ≥ s.track_length
            ∧ (s.fast_waypoint = true
              ∨ vlen e.sqrtq ((e.curr_pos - Vec3.mk 0 0 ((advance_terr_offset s e).getD 0))
                  - s.destination) ≤ s.wp_radius_cm))))
    ∧ (s.reached_destination = true → (update_wpnav e now s).2.reached_destination = true) := by
  refine ⟨?_, fun hr => update_wpnav_reached_mono e now s hr⟩
  rcases hopt : advance_terr_offset s e with _ | off
  · unfold advance_wp_target_along_track at h
    rw [hopt] at h
    exact absurd h (by simp)
  · unfold advance_wp_target_along_track
    rw [hopt]
    dsimp only
    exact reached_update_iff _ _ _ _ _ _

/-- C7 witness: a straight tick keeps an already reached segment reached. -/
theorem C7_witness : (update_wpnav env0 5 stReached).2.reached_destination = true :=
  (C7_reached_destination_flip env0 stReached.pc.dt 5 stReached rfl).2 rfl

end WPNav
